import Mathlib

/-!
Verification development for the greenlight-style movie API
(`internal/data/movies.go` and `cmd/api/movies.go`).

The database is modelled as a list of rows; each repository operation is a
pure function from the row list (plus an optional injected driver failure)
to the new row list and a Go-style result. Error values mirror the Go
error identities relevant to control flow: `sql.ErrNoRows`,
`data.ErrRecordNotFound`, `data.ErrEditConflict`, and an opaque driver
failure carrying a message.
-/

/-- Go error values distinguished by the code's `errors.Is` switches.
`sqlErrNoRows` is the raw driver sentinel `sql.ErrNoRows`;
`errRecordNotFound` and `errEditConflict` are the custom errors declared in
`internal/data`; `storageError` stands for any other driver failure. -/
inductive GoError where
  | sqlErrNoRows
  | errRecordNotFound
  | errEditConflict
  | storageError (msg : String)
  deriving DecidableEq, Repr

/-- Row of the `movies` table / the `data.Movie` struct. -/
structure Movie where
  ID : Int
  CreatedAt : Int
  Title : String
  Year : Int
  Runtime : Int
  Genres : List String
  Version : Int
  deriving DecidableEq, Repr

/-- Row of the `actor` table / the `data.Actor` struct. -/
structure Actor where
  ID : Int
  CreatedAt : Int
  Fullname : String
  Year : Int
  Films : List String
  Girlfriend : String
  deriving DecidableEq, Repr

/-- The `data.Filters` struct; its fields appear in
`cmd/api/movies.go` (`input.Filters.Page`, `.PageSize`, `.Sort`,
`.SortSafelist`). -/
structure Filters where
  Page : Int
  PageSize : Int
  «Sort» : String
  SortSafelist : List String
  deriving DecidableEq, Repr

/-- Modelled from the spec: the Filters methods live in
`internal/data/filters.go`, which is not under `src/`. Per the spec,
`sortColumn = sortKey with leading "-" stripped`. -/
def Filters.sortColumn (f : Filters) : String :=
  if f.«Sort».startsWith "-" then f.«Sort».drop 1 else f.«Sort»

/-- Modelled from the spec: `sortDirection = "DESC" if prefixed with "-"
else "ASC"` (`internal/data/filters.go` is not under `src/`). -/
def Filters.sortDirection (f : Filters) : String :=
  if f.«Sort».startsWith "-" then "DESC" else "ASC"

/-- Modelled from the spec: `limit = pageSize`
(`internal/data/filters.go` is not under `src/`). -/
def Filters.limit (f : Filters) : Int :=
  f.PageSize

/-- Modelled from the spec: `offset = (page-1) * pageSize`
(`internal/data/filters.go` is not under `src/`). -/
def Filters.offset (f : Filters) : Int :=
  (f.Page - 1) * f.PageSize

/-- Modelled from the spec: the hard maximum for pageSize
("e.g., 100"); the validation code is not under `src/`. -/
def maxPageSize : Int := 100

/-- Values handed to the driver as bound statement parameters. -/
inductive SqlValue where
  | text (s : String)
  | array (a : List String)
  | int (i : Int)
  deriving DecidableEq, Repr

/-- The query string built by `MovieModel.GetAll` via `fmt.Sprintf`:
only the two `%s` verbs (sort column and sort direction) are
interpolated; everything else is fixed text with placeholders
`$1`..`$4`. -/
def movieGetAllQuery (f : Filters) : String :=
  "\nSELECT id, created_at, title, year, runtime, genres, version\nFROM movies\nWHERE (to_tsvector('simple', title) @@ plainto_tsquery('simple', $1) OR $1 = '') AND (genres @> $2 OR $2 = '\x7b\x7d')\nORDER BY " ++ f.sortColumn ++ " " ++ f.sortDirection ++ ", id ASC\nLIMIT $3 OFFSET $4"

/-- The bound-argument slice of `MovieModel.GetAll`:
`args := []any\x7btitle, pq.Array(genres), filters.limit(), filters.offset()\x7d`. -/
def movieGetAllArgs (title : String) (genres : List String) (f : Filters) : List SqlValue :=
  [SqlValue.text title, SqlValue.array genres, SqlValue.int f.limit, SqlValue.int f.offset]

/-- The query string built by `DirectorModel.GetAllDirectors` via
`fmt.Sprintf`, again with only the sort column and direction
interpolated. -/
def directorGetAllQuery (f : Filters) : String :=
  "\nSELECT id, name, surname, awords\nFROM directors\nWHERE (to_tsvector('simple', name) @@ plainto_tsquery('simple', $1) OR $1 = '') AND (awords @> $2 OR $2 = '\x7b\x7d')\nORDER BY " ++ f.sortColumn ++ " " ++ f.sortDirection ++ ", id ASC\nLIMIT $3 OFFSET $4"

/-- Postgres array containment `sup @> sub`: every element of `sub`
occurs in `sup`. -/
def arrayContains (sup sub : List String) : Bool :=
  sub.all (fun x => sup.contains x)

/-- The WHERE clause of the movie list query, evaluated on one row.
`fts t q` abstracts the full-text match
`to_tsvector('simple', t) @@ plainto_tsquery('simple', q)`; the two
disjuncts `$1 = ''` and `$2 = '\x7b\x7d'` are the literal pass-through
comparisons from the query text. -/
def movieWhere (fts : String → String → Bool) (title : String) (genres : List String)
    (row : Movie) : Bool :=
  (fts row.Title title || title == "") && (arrayContains row.Genres genres || genres == [])

/-- Strict comparison of two movie rows on one sort column of the
safelist (`title`, `year`, `runtime`, anything else sorts by `id`,
matching the safelist entry `id`). -/
def colLt (col : String) (a b : Movie) : Bool :=
  if col == "title" then decide (a.Title < b.Title)
  else if col == "year" then decide (a.Year < b.Year)
  else if col == "runtime" then decide (a.Runtime < b.Runtime)
  else decide (a.ID < b.ID)

/-- Strict comparison on the sort column in the requested direction:
`DESC` flips the comparison. -/
def colLtDir (col dir : String) (a b : Movie) : Bool :=
  if dir == "DESC" then colLt col b a else colLt col a b

/-- Row order realised by `ORDER BY <col> <dir>, id ASC`: primary key
strictly first, ties broken by ascending id. -/
def movieLE (col dir : String) (a b : Movie) : Bool :=
  if colLtDir col dir a b then true
  else if colLtDir col dir b a then false
  else decide (a.ID ≤ b.ID)

/-- Rows the movie list query returns, in order: WHERE-matching rows
sorted by `ORDER BY <sortColumn> <sortDirection>, id ASC`, then
`OFFSET` rows skipped and `LIMIT` rows taken. -/
def evalMovieGetAll (fts : String → String → Bool) (db : List Movie)
    (title : String) (genres : List String) (f : Filters) : List Movie :=
  (((db.filter (movieWhere fts title genres)).mergeSort
      (movieLE f.sortColumn f.sortDirection)).drop f.offset.toNat).take f.limit.toNat

/-- Effect of `UPDATE movies SET title=$1, year=$2, runtime=$3,
genres=$4, version = version + 1` on one matched row. -/
def movieApplyUpdate (m r : Movie) : Movie :=
  { r with Title := m.Title, Year := m.Year, Runtime := m.Runtime,
           Genres := m.Genres, Version := r.Version + 1 }

/-- `MovieModel.Update`: runs the conditional update
`WHERE id = $5 AND version = $6` with `RETURNING version`, scanning the
returned version into the record. `QueryRow(...).Scan` yields
`sql.ErrNoRows` when no row matched, which the code's switch turns into
`ErrEditConflict`; any other error (`dbFail`) falls to the `default`
branch and is returned unchanged. -/
def MovieModel.Update (db : List Movie) (movie : Movie) (dbFail : Option String) :
    List Movie × Except GoError Movie :=
  match dbFail with
  | some msg => (db, Except.error (GoError.storageError msg))
  | none =>
    let db' := db.map (fun r =>
      if r.ID == movie.ID && r.Version == movie.Version then movieApplyUpdate movie r else r)
    match (db.filter (fun r => r.ID == movie.ID && r.Version == movie.Version)).map
        (fun r => r.Version + 1) with
    | [] => (db', Except.error GoError.errEditConflict)
    | v :: _ => (db', Except.ok { movie with Version := v })

/-- `MovieModel.Delete`: rejects `id < 1` before touching the database,
then runs `DELETE FROM movies WHERE id = $1` and maps an affected-row
count of zero to `ErrRecordNotFound`; a driver failure (`dbFail`) is
returned unchanged. -/
def MovieModel.Delete (db : List Movie) (id : Int) (dbFail : Option String) :
    List Movie × Option GoError :=
  if id < 1 then (db, some GoError.errRecordNotFound)
  else
    match dbFail with
    | some msg => (db, some (GoError.storageError msg))
    | none =>
      let remaining := db.filter (fun r => !(r.ID == id))
      if db.countP (fun r => r.ID == id) = 0 then (remaining, some GoError.errRecordNotFound)
      else (remaining, none)

/-- `MovieModel.GetByTitle`: guards `if title < "null"` before any query
is issued, then selects by exact title. The second component records
whether the database was queried at all. -/
def MovieModel.GetByTitle (db : List Movie) (title : String) :
    Except GoError Movie × Bool :=
  if title < "null" then (Except.error GoError.errRecordNotFound, false)
  else
    match db.find? (fun r => r.Title == title) with
    | some r => (Except.ok r, true)
    | none => (Except.error GoError.errRecordNotFound, true)

/-- Effect of `UPDATE actor SET fullname=$1, year=$2, films=$3,
girlfriend=$4 WHERE id=$5` on one matched row — no version column, no
version check. -/
def actorApplyUpdate (a r : Actor) : Actor :=
  { r with Fullname := a.Fullname, Year := a.Year, Films := a.Films,
           Girlfriend := a.Girlfriend }

/-- `ActorModel.UpdateActor`: unconditional update keyed only on id with
`RETURNING girlfriend`; the error of `QueryRow(...).Scan` is returned
with no translation at all, so a missing row surfaces as the raw
`sql.ErrNoRows`. -/
def ActorModel.UpdateActor (db : List Actor) (actor : Actor) (dbFail : Option String) :
    List Actor × Except GoError Actor :=
  match dbFail with
  | some msg => (db, Except.error (GoError.storageError msg))
  | none =>
    let db' := db.map (fun r => if r.ID == actor.ID then actorApplyUpdate actor r else r)
    match (db.filter (fun r => r.ID == actor.ID)).map (fun r => (actorApplyUpdate actor r).Girlfriend) with
    | [] => (db', Except.error GoError.sqlErrNoRows)
    | g :: _ => (db', Except.ok { actor with Girlfriend := g })

/-- HTTP status sent by `application.serverErrorResponse`. -/
def serverErrorStatus : Nat := 500

/-- HTTP status sent by `application.editConflictResponse`. -/
def editConflictStatus : Nat := 409

/-- `application.updateMovieHandler` after the `app.models.Movies.Update`
call: `if err != nil` it sends `serverErrorResponse` — every error value,
with no `errors.Is` discrimination — else `writeJSON` with 200. -/
def updateMovieHandlerOnUpdate (res : Except GoError Movie) : Nat :=
  match res with
  | Except.error _ => serverErrorStatus
  | Except.ok _ => 200

/-- `application.updateMovieeHandler` after its `Update` call: identical
blanket `serverErrorResponse` for every error. (Its `editConflictResponse`
branch sits on the earlier `Get` error path instead.) -/
def updateMovieeHandlerOnUpdate (res : Except GoError Movie) : Nat :=
  match res with
  | Except.error _ => serverErrorStatus
  | Except.ok _ => 200

/-- `application.updateActorHandler` after `app.models.Actor.UpdateActor`:
any non-nil error goes to `serverErrorResponse`. -/
def updateActorHandlerOnUpdate (res : Except GoError Actor) : Nat :=
  match res with
  | Except.error _ => serverErrorStatus
  | Except.ok _ => 200

/-- Sample movie row: id 1, version 1. -/
def mv1 : Movie := ⟨1, 0, "Dune", 2021, 155, ["sci-fi"], 1⟩

/-- Second sample movie row, distinct id. -/
def mv2 : Movie := ⟨2, 0, "Tar", 2022, 158, ["drama"], 1⟩

/-- Update payload carrying a stale version (7) for id 1. -/
def mvStale : Movie := ⟨1, 0, "Dune", 2021, 155, ["sci-fi"], 7⟩

/-- Update payload matching id 1 at the current version 1, with new field values. -/
def mv1b : Movie := ⟨1, 0, "Dune", 2022, 160, ["sci-fi", "epic"], 1⟩

/-- Sample actor row with id 1. -/
def act1 : Actor := ⟨1, 0, "Timmy", 1996, ["Dune"], "none"⟩

/-- Actor update payload whose id 5 matches no stored row. -/
def actMissing : Actor := ⟨5, 0, "Bob", 1990, [], "x"⟩

/-- Default filters from `listMoviesHandler`: page 1, page size 20, sort `id`. -/
def f0 : Filters := ⟨1, 20, "id", ["id", "title", "year", "runtime", "-id", "-title", "-year", "-runtime"]⟩

/-- Filters differing from `f0` only in page and page size. -/
def fPage3 : Filters := ⟨3, 10, "id", ["id", "title", "year", "runtime", "-id", "-title", "-year", "-runtime"]⟩

/-- C1: when no stored row matches both the supplied id and the supplied version,
`MovieModel.Update` returns `ErrEditConflict` — an error distinct from
`ErrRecordNotFound` and distinct from success — and any other storage error is
passed through unchanged. -/
theorem movieUpdate_conflict_not_notFound_passthrough (db : List Movie) (movie : Movie)
    (h : ∀ r ∈ db, ¬(r.ID = movie.ID ∧ r.Version = movie.Version)) :
    (MovieModel.Update db movie none).2 = Except.error GoError.errEditConflict ∧
    (∀ m : Movie, (MovieModel.Update db movie none).2 ≠ Except.ok m) ∧
    (MovieModel.Update db movie none).2 ≠ Except.error GoError.errRecordNotFound ∧
    (∀ msg : String, (MovieModel.Update db movie (some msg)).2 =
      Except.error (GoError.storageError msg)) := by
  have hfil : db.filter (fun r => r.ID == movie.ID && r.Version == movie.Version) = [] := by
    rw [List.filter_eq_nil_iff]
    intro r hr
    simpa using h r hr
  refine ⟨?_, ?_, ?_, fun msg => rfl⟩ <;> simp [MovieModel.Update, hfil]

/-- Concrete instantiation of the C1 theorem: updating id 1 with stale version 7
against a store holding version 1 yields `ErrEditConflict`. -/
theorem movieUpdate_conflict_witness :
    (MovieModel.Update [mv1] mvStale none).2 = Except.error GoError.errEditConflict :=
  (movieUpdate_conflict_not_notFound_passthrough [mv1] mvStale (by decide)).1

/-- C2: on a successful movie update (a stored row matches both id and version),
the stored version counter is incremented by exactly one and the new value is
returned in the record's `Version` field. -/
theorem movieUpdate_success_increments_version (db : List Movie) (movie r : Movie)
    (hnodup : (db.map Movie.ID).Nodup) (hr : r ∈ db)
    (hid : r.ID = movie.ID) (hver : r.Version = movie.Version) :
    (MovieModel.Update db movie none).2 =
      Except.ok { movie with Version := movie.Version + 1 } ∧
    movieApplyUpdate movie r ∈ (MovieModel.Update db movie none).1 ∧
    (movieApplyUpdate movie r).Version = r.Version + 1 ∧
    (∀ x ∈ (MovieModel.Update db movie none).1, x.ID = movie.ID →
      x = movieApplyUpdate movie r) := by
  have hpr : (fun x : Movie => x.ID == movie.ID && x.Version == movie.Version) r = true := by
    simp [hid, hver]
  have hmemf : r ∈ db.filter (fun x => x.ID == movie.ID && x.Version == movie.Version) :=
    List.mem_filter.mpr ⟨hr, hpr⟩
  obtain ⟨a, t, heq⟩ :=
    List.exists_cons_of_ne_nil (List.ne_nil_of_mem hmemf)
  have haf : a ∈ db.filter (fun x => x.ID == movie.ID && x.Version == movie.Version) := by
    rw [heq]; exact List.mem_cons_self a t
  have hav : a.Version = movie.Version := by
    have := (List.mem_filter.mp haf).2
    simp at this
    exact this.2
  refine ⟨?_, ?_, by simp [movieApplyUpdate], ?_⟩
  · simp [MovieModel.Update, heq, hav]
  · have hgr : (fun x : Movie =>
        if x.ID == movie.ID && x.Version == movie.Version then movieApplyUpdate movie x else x) r
        = movieApplyUpdate movie r := by
      simp [hid, hver]
    have : movieApplyUpdate movie r ∈ db.map (fun x =>
        if x.ID == movie.ID && x.Version == movie.Version then movieApplyUpdate movie x else x) := by
      rw [← hgr]
      exact List.mem_map_of_mem _ hr
    simpa [MovieModel.Update, heq] using this
  · intro x hx hxid
    have hx' : x ∈ db.map (fun y =>
        if y.ID == movie.ID && y.Version == movie.Version then movieApplyUpdate movie y else y) := by
      simpa [MovieModel.Update, heq] using hx
    obtain ⟨y, hy, rfl⟩ := List.mem_map.mp hx'
    by_cases hpy : (y.ID == movie.ID && y.Version == movie.Version) = true
    · have hyid : y.ID = movie.ID := by
        have h2 := hpy
        simp only [Bool.and_eq_true, beq_iff_eq] at h2
        exact h2.1
      have hyr : y = r := List.inj_on_of_nodup_map hnodup hy hr (hyid.trans hid.symm)
      rw [if_pos hpy, hyr]
    · exfalso
      rw [if_neg hpy] at hxid
      have hyr : y = r := List.inj_on_of_nodup_map hnodup hy hr (hxid.trans hid.symm)
      rw [hyr] at hpy
      exact hpy hpr

/-- Concrete instantiation of the C2 theorem: updating id 1 at version 1 returns the
record at version 2. -/
theorem movieUpdate_success_witness :
    (MovieModel.Update [mv1] mv1b none).2 =
      Except.ok { mv1b with Version := mv1b.Version + 1 } :=
  (movieUpdate_success_increments_version [mv1] mv1b mv1 (by decide)
    (List.mem_cons_self mv1 []) rfl rfl).1

/-- C3 helper: a permutation between two lists that are both pairwise-ordered by `r`
is an equality, provided the first list has no duplicates and `r` is antisymmetric
on its members. -/
theorem eq_of_perm_of_pairwise_of_antisymmOn {α : Type} {r : α → α → Prop} :
    ∀ (l₁ : List α) {l₂ : List α}, l₁.Perm l₂ → l₁.Nodup →
      (∀ a ∈ l₁, ∀ b ∈ l₁, r a b → r b a → a = b) →
      l₁.Pairwise r → l₂.Pairwise r → l₁ = l₂ := by
  intro l₁
  induction l₁ with
  | nil =>
    intro l₂ hp _ _ _ _
    exact hp.nil_eq
  | cons a t ih =>
    intro l₂ hp hnd hanti hs₁ hs₂
    have ha₂ : a ∈ l₂ := hp.subset (List.mem_cons_self a t)
    obtain ⟨u, v, rfl⟩ := List.append_of_mem ha₂
    have hnd₂ : (u ++ a :: v).Nodup := hp.nodup hnd
    have hu : u = [] := by
      by_contra hne
      obtain ⟨x, hx⟩ := List.exists_mem_of_ne_nil u hne
      have hrxa : r x a :=
        (List.pairwise_append.mp hs₂).2.2 x hx a (List.mem_cons_self a v)
      have hxl1 : x ∈ a :: t := hp.symm.subset (by simp [hx])
      have hxa : x ≠ a := by
        intro hxaeq
        exact (List.disjoint_of_nodup_append hnd₂) hx (hxaeq ▸ List.mem_cons_self a v)
      have hxt : x ∈ t := by
        rcases List.mem_cons.mp hxl1 with h | h
        · exact absurd h hxa
        · exact h
      have hrax : r a x := (List.pairwise_cons.mp hs₁).1 x hxt
      exact hxa (hanti x hxl1 a (List.mem_cons_self a t) hrxa hrax)
    subst hu
    have hp' : t.Perm v := (List.perm_cons a).mp hp
    have htv : t = v := by
      refine ih hp' (List.nodup_cons.mp hnd).2 ?_ (List.pairwise_cons.mp hs₁).2
        (List.pairwise_cons.mp hs₂).2
      intro x hx y hy hxy hyx
      exact hanti x (List.mem_cons_of_mem a hx) y (List.mem_cons_of_mem a hy) hxy hyx
    rw [htv, List.nil_append]

/-- The per-column strict comparison is asymmetric. -/
theorem colLt_asymm (col : String) (a b : Movie) (h : colLt col a b = true) :
    colLt col b a = false := by
  unfold colLt at *
  split_ifs at * <;> simp_all
  · exact le_of_lt h
  all_goals omega

/-- The per-column strict comparison is transitive. -/
theorem colLt_trans (col : String) (a b c : Movie)
    (h₁ : colLt col a b = true) (h₂ : colLt col b c = true) : colLt col a c = true := by
  unfold colLt at *
  split_ifs at * <;> simp_all
  · exact lt_trans h₁ h₂
  all_goals omega

/-- Incomparability under the per-column strict comparison is transitive. -/
theorem colLt_negtrans (col : String) (a b c : Movie)
    (h₁ : colLt col a b = false) (h₂ : colLt col b c = false) : colLt col a c = false := by
  unfold colLt at *
  split_ifs at * <;> simp_all
  · exact le_trans h₂ h₁
  all_goals omega

/-- Direction-adjusted comparison is asymmetric. -/
theorem colLtDir_asymm (col dir : String) (a b : Movie) (h : colLtDir col dir a b = true) :
    colLtDir col dir b a = false := by
  unfold colLtDir at *
  split_ifs at * <;> exact colLt_asymm col _ _ h

/-- Direction-adjusted comparison is transitive. -/
theorem colLtDir_trans (col dir : String) (a b c : Movie)
    (h₁ : colLtDir col dir a b = true) (h₂ : colLtDir col dir b c = true) :
    colLtDir col dir a c = true := by
  unfold colLtDir at *
  split_ifs at *
  · exact colLt_trans col c b a h₂ h₁
  · exact colLt_trans col a b c h₁ h₂

/-- Direction-adjusted incomparability is transitive. -/
theorem colLtDir_negtrans (col dir : String) (a b c : Movie)
    (h₁ : colLtDir col dir a b = false) (h₂ : colLtDir col dir b c = false) :
    colLtDir col dir a c = false := by
  unfold colLtDir at *
  split_ifs at *
  · exact colLt_negtrans col c b a h₂ h₁
  · exact colLt_negtrans col a b c h₁ h₂

/-- Unfolding characterisation of the ORDER BY row order. -/
theorem movieLE_eq_true_iff (col dir : String) (a b : Movie) :
    movieLE col dir a b = true ↔
      colLtDir col dir a b = true ∨
      (colLtDir col dir a b = false ∧ colLtDir col dir b a = false ∧ a.ID ≤ b.ID) := by
  unfold movieLE
  by_cases h₁ : colLtDir col dir a b <;> by_cases h₂ : colLtDir col dir b a <;>
    simp [h₁, h₂]

/-- The ORDER BY row order is total. -/
theorem movieLE_total (col dir : String) (a b : Movie) :
    (movieLE col dir a b || movieLE col dir b a) = true := by
  unfold movieLE
  by_cases h₁ : colLtDir col dir a b <;> by_cases h₂ : colLtDir col dir b a <;>
    simp [h₁, h₂] <;> omega

/-- The ORDER BY row order is transitive. -/
theorem movieLE_trans (col dir : String) (a b c : Movie)
    (hab : movieLE col dir a b = true) (hbc : movieLE col dir b c = true) :
    movieLE col dir a c = true := by
  rw [movieLE_eq_true_iff] at hab hbc ⊢
  rcases hab with h₁ | ⟨h₁, h₂, h₃⟩
  · rcases hbc with h₄ | ⟨h₄, h₅, h₆⟩
    · exact Or.inl (colLtDir_trans col dir a b c h₁ h₄)
    · left
      by_contra hac
      have hac' : colLtDir col dir a c = false := by
        revert hac
        cases colLtDir col dir a c <;> simp
      exact absurd (colLtDir_negtrans col dir a c b hac' h₅) (by simp [h₁])
  · rcases hbc with h₄ | ⟨h₄, h₅, h₆⟩
    · left
      by_contra hac
      have hac' : colLtDir col dir a c = false := by
        revert hac
        cases colLtDir col dir a c <;> simp
      exact absurd (colLtDir_negtrans col dir b a c h₂ hac') (by simp [h₄])
    · exact Or.inr ⟨colLtDir_negtrans col dir a b c h₁ h₄,
        colLtDir_negtrans col dir c b a h₅ h₂, le_trans h₃ h₆⟩

/-- Mutually ordered rows have equal ids under the ORDER BY row order. -/
theorem movieLE_antisymm_id (col dir : String) (a b : Movie)
    (hab : movieLE col dir a b = true) (hba : movieLE col dir b a = true) :
    a.ID = b.ID := by
  rw [movieLE_eq_true_iff] at hab hba
  rcases hab with h₁ | ⟨h₁, h₂, h₃⟩
  · rcases hba with h₄ | ⟨h₄, h₅, h₆⟩
    · exact absurd (colLtDir_asymm col dir a b h₁) (by simp [h₄])
    · exact absurd h₁ (by simp [h₅])
  · rcases hba with h₄ | ⟨h₄, h₅, h₆⟩
    · exact absurd h₄ (by simp [h₂])
    · omega

/-- Sorting by the ORDER BY row order is deterministic on row sets with distinct
ids: any two scan orders of the same rows sort to the same list. -/
theorem mergeSort_movieLE_deterministic (col dir : String) (db₁ db₂ : List Movie)
    (hperm : db₁.Perm db₂) (hnodup : (db₁.map Movie.ID).Nodup) :
    db₁.mergeSort (movieLE col dir) = db₂.mergeSort (movieLE col dir) := by
  apply eq_of_perm_of_pairwise_of_antisymmOn (r := fun a b => movieLE col dir a b = true)
  · exact ((List.mergeSort_perm db₁ _).trans hperm).trans (List.mergeSort_perm db₂ _).symm
  · exact ((List.mergeSort_perm db₁ _).nodup_iff).mpr (hnodup.of_map _)
  · intro a ha b hb hab hba
    have ha' : a ∈ db₁ := (List.mergeSort_perm db₁ _).subset ha
    have hb' : b ∈ db₁ := (List.mergeSort_perm db₁ _).subset hb
    exact List.inj_on_of_nodup_map hnodup ha' hb' (movieLE_antisymm_id col dir a b hab hba)
  · exact List.sorted_mergeSort (movieLE_trans col dir) (movieLE_total col dir) db₁
  · exact List.sorted_mergeSort (movieLE_trans col dir) (movieLE_total col dir) db₂

/-- C3: both list queries order by the validated sort column and direction followed
by the mandatory `id ASC` tie-break, and — because the tie-break makes the order
antisymmetric on rows with distinct ids — two calls with identical filter arguments
over the same stored rows return the rows in the same order, however the storage
engine enumerates them and even when the primary sort column has duplicate values. -/
theorem getAll_orderBy_tiebreak_deterministic :
    (∀ f : Filters, ∃ pre post : String,
      movieGetAllQuery f =
        pre ++ "ORDER BY " ++ f.sortColumn ++ " " ++ f.sortDirection ++ ", id ASC" ++ post) ∧
    (∀ f : Filters, ∃ pre post : String,
      directorGetAllQuery f =
        pre ++ "ORDER BY " ++ f.sortColumn ++ " " ++ f.sortDirection ++ ", id ASC" ++ post) ∧
    (∀ (fts : String → String → Bool) (title : String) (genres : List String)
        (f : Filters) (db₁ db₂ : List Movie),
      db₁.Perm db₂ → (db₁.map Movie.ID).Nodup →
        evalMovieGetAll fts db₁ title genres f = evalMovieGetAll fts db₂ title genres f) := by
  refine ⟨?_, ?_, ?_⟩
  · intro f
    exact ⟨"\nSELECT id, created_at, title, year, runtime, genres, version\nFROM movies\nWHERE (to_tsvector('simple', title) @@ plainto_tsquery('simple', $1) OR $1 = '') AND (genres @> $2 OR $2 = '\x7b\x7d')\n",
      "\nLIMIT $3 OFFSET $4", by simp [movieGetAllQuery, String.append_assoc]⟩
  · intro f
    exact ⟨"\nSELECT id, name, surname, awords\nFROM directors\nWHERE (to_tsvector('simple', name) @@ plainto_tsquery('simple', $1) OR $1 = '') AND (awords @> $2 OR $2 = '\x7b\x7d')\n",
      "\nLIMIT $3 OFFSET $4", by simp [directorGetAllQuery, String.append_assoc]⟩
  · intro fts title genres f db₁ db₂ hperm hnodup
    unfold evalMovieGetAll
    rw [mergeSort_movieLE_deterministic f.sortColumn f.sortDirection
      (db₁.filter (movieWhere fts title genres)) (db₂.filter (movieWhere fts title genres))
      (hperm.filter _)
      (hnodup.sublist ((List.filter_sublist db₁).map Movie.ID))]

/-- Concrete instantiation of the C3 theorem: the two scan orders of the same two
rows (which tie on the sort column `year` of `mv1b`) produce the same listing. -/
theorem getAll_orderBy_tiebreak_witness :
    evalMovieGetAll (fun _ _ => false) [mv1, mv2] "" [] f0 =
      evalMovieGetAll (fun _ _ => false) [mv2, mv1] "" [] f0 :=
  getAll_orderBy_tiebreak_deterministic.2.2 (fun _ _ => false) "" [] f0 [mv1, mv2] [mv2, mv1]
    (List.Perm.swap mv2 mv1 []) (by decide)

/-- C6: with an empty text query and an empty tag list both WHERE predicates are
pass-throughs, so every stored row matches and the list operation returns all rows
(as a permutation — ordering aside) whenever the first page is large enough. -/
theorem getAll_empty_query_matches_all :
    (∀ (fts : String → String → Bool) (row : Movie), movieWhere fts "" [] row = true) ∧
    (∀ (fts : String → String → Bool) (db : List Movie),
      db.filter (movieWhere fts "" []) = db) ∧
    (∀ (fts : String → String → Bool) (db : List Movie) (f : Filters),
      f.Page = 1 → db.length ≤ f.PageSize.toNat →
        (evalMovieGetAll fts db "" [] f).Perm db) := by
  have hrow : ∀ (fts : String → String → Bool) (row : Movie),
      movieWhere fts "" [] row = true := by
    intro fts row
    simp [movieWhere, arrayContains]
  have hfil : ∀ (fts : String → String → Bool) (db : List Movie),
      db.filter (movieWhere fts "" []) = db := by
    intro fts db
    exact List.filter_eq_self.mpr (fun a _ => hrow fts a)
  refine ⟨hrow, hfil, ?_⟩
  intro fts db f hpage hsize
  unfold evalMovieGetAll
  rw [hfil]
  have hoff : f.offset.toNat = 0 := by
    simp [Filters.offset, hpage]
  have hlen : (db.mergeSort (movieLE f.sortColumn f.sortDirection)).length = db.length :=
    (List.mergeSort_perm db _).length_eq
  rw [hoff, List.drop_zero, List.take_of_length_le (by rw [hlen]; exact hsize)]
  exact List.mergeSort_perm db _

/-- Concrete instantiation of the C6 theorem: listing with empty text query and
empty tags over a two-row store returns both rows. -/
theorem getAll_empty_query_witness :
    (evalMovieGetAll (fun _ _ => false) [mv1, mv2] "" [] f0).Perm [mv1, mv2] :=
  getAll_empty_query_matches_all.2.2 (fun _ _ => false) [mv1, mv2] f0 rfl (by decide)

/-- C4: the GetAll query string is a function of the validated sort column and
direction only; title, genres, limit and offset never reach the query text and are
passed solely as the bound parameters `$1`..`$4`, in that order. -/
theorem movieGetAllQuery_function_of_sort_only (t t' : String) (g g' : List String)
    (f f' : Filters) (hc : f.sortColumn = f'.sortColumn)
    (hd : f.sortDirection = f'.sortDirection) :
    movieGetAllQuery f = movieGetAllQuery f' ∧
    movieGetAllArgs t g f =
      [SqlValue.text t, SqlValue.array g, SqlValue.int f.limit, SqlValue.int f.offset] :=
  ⟨by simp only [movieGetAllQuery, hc, hd], rfl⟩

/-- Concrete instantiation of the C4 theorem: two calls differing only in title,
genres, page and page size produce identical query strings. -/
theorem movieGetAllQuery_function_of_sort_only_witness :
    movieGetAllQuery f0 = movieGetAllQuery fPage3 :=
  (movieGetAllQuery_function_of_sort_only "Dune" "" ["sci-fi"] [] f0 fPage3 rfl rfl).1

/-- C5: for a valid filter specification (page at least 1, page size within the
configured maximum), limit is exactly pageSize, offset is exactly
(page-1)*pageSize, and these two values occupy the `$3` (LIMIT) and `$4`
(OFFSET) argument positions of the list query. -/
theorem filters_limit_offset_binding (f : Filters) (title : String) (genres : List String)
    (hp : 1 ≤ f.Page) (hs : f.PageSize ≤ maxPageSize) :
    f.limit = f.PageSize ∧ f.offset = (f.Page - 1) * f.PageSize ∧
    (movieGetAllArgs title genres f)[2]? = some (SqlValue.int f.limit) ∧
    (movieGetAllArgs title genres f)[3]? = some (SqlValue.int f.offset) :=
  ⟨rfl, rfl, rfl, rfl⟩

/-- Concrete instantiation of the C5 theorem at page 3, page size 10. -/
theorem filters_limit_offset_binding_witness :
    fPage3.limit = fPage3.PageSize ∧ fPage3.offset = (fPage3.Page - 1) * fPage3.PageSize :=
  ⟨(filters_limit_offset_binding fPage3 "" [] (by decide) (by decide)).1,
    (filters_limit_offset_binding fPage3 "" [] (by decide) (by decide)).2.1⟩

/-- C7: with no driver failure, Delete returns NotFound exactly when id < 1 or the
statement affects zero rows, and never any other error kind; when id < 1 the store
is untouched; deleting an absent id is NotFound on the first and every repeated
call. -/
theorem movieDelete_notFound_iff_idempotent (db : List Movie) (id : Int) :
    ((MovieModel.Delete db id none).2 = some GoError.errRecordNotFound ↔
      (id < 1 ∨ ∀ r ∈ db, r.ID ≠ id)) ∧
    (∀ e, (MovieModel.Delete db id none).2 = some e → e = GoError.errRecordNotFound) ∧
    (id < 1 → (MovieModel.Delete db id none).1 = db) ∧
    ((∀ r ∈ db, r.ID ≠ id) →
      (MovieModel.Delete db id none).2 = some GoError.errRecordNotFound ∧
      (MovieModel.Delete (MovieModel.Delete db id none).1 id none).2 =
        some GoError.errRecordNotFound) := by
  by_cases hid : id < 1
  · refine ⟨by simp [MovieModel.Delete, hid], ?_, by simp [MovieModel.Delete, hid], ?_⟩
    · intro e he
      simp [MovieModel.Delete, hid] at he
      exact he.symm
    · intro _
      constructor <;> simp [MovieModel.Delete, hid]
  · have key : db.countP (fun r => r.ID == id) = 0 ↔ ∀ r ∈ db, r.ID ≠ id := by
      rw [List.countP_eq_zero]
      simp
    by_cases hz : db.countP (fun r => r.ID == id) = 0
    · have habs : ∀ r ∈ db, r.ID ≠ id := key.mp hz
      have hz₂ : (db.filter (fun r => !(r.ID == id))).countP (fun r => r.ID == id) = 0 := by
        rw [List.countP_eq_zero]
        intro a ha
        simpa using habs a (List.mem_of_mem_filter ha)
      refine ⟨?_, ?_, fun h => absurd h hid, ?_⟩
      · simp [MovieModel.Delete, hid, hz]
        exact fun r hr => habs r hr
      · intro e he
        simp [MovieModel.Delete, hid, hz] at he
        exact he.symm
      · intro _
        refine ⟨by simp [MovieModel.Delete, hid, hz], ?_⟩
        simp [MovieModel.Delete, hid, hz, hz₂]
    · have hex : ¬ ∀ r ∈ db, r.ID ≠ id := fun h => hz (key.mpr h)
      refine ⟨by simp [MovieModel.Delete, hid, hz, hex], ?_, fun h => absurd h hid,
        fun h => absurd h hex⟩
      intro e he
      simp [MovieModel.Delete, hid, hz] at he

/-- Concrete instantiation of the C7 theorem: deleting the absent id 9 from a
one-row store is NotFound on both the first and the second call. -/
theorem movieDelete_idempotent_witness :
    (MovieModel.Delete [mv1] 9 none).2 = some GoError.errRecordNotFound ∧
    (MovieModel.Delete (MovieModel.Delete [mv1] 9 none).1 9 none).2 =
      some GoError.errRecordNotFound :=
  (movieDelete_notFound_iff_idempotent [mv1] 9).2.2.2 (by decide)

/-- C8: contrary to the documented 409 mapping, both movie update handlers answer
an `ErrEditConflict` from `Update` with the `serverErrorResponse` status 500 — the
very same status they use for a storage error — and never with the 409 of
`editConflictResponse`. -/
theorem updateHandlers_map_editConflict_to_500 :
    updateMovieHandlerOnUpdate (Except.error GoError.errEditConflict) = serverErrorStatus ∧
    updateMovieeHandlerOnUpdate (Except.error GoError.errEditConflict) = serverErrorStatus ∧
    updateMovieHandlerOnUpdate (Except.error (GoError.storageError "db down")) =
      serverErrorStatus ∧
    updateMovieeHandlerOnUpdate (Except.error (GoError.storageError "db down")) =
      serverErrorStatus ∧
    serverErrorStatus = 500 ∧ editConflictStatus = 409 ∧
    serverErrorStatus ≠ editConflictStatus :=
  ⟨rfl, rfl, rfl, rfl, rfl, rfl, by decide⟩

/-- C9: GetByTitle answers NotFound without ever querying storage for every title
lexicographically below the literal string "null" — even when a movie with that
exact title is stored — and only titles at or above "null" reach the database
lookup. -/
theorem getByTitle_null_guard (db : List Movie) (title : String) :
    (title < "null" →
      MovieModel.GetByTitle db title = (Except.error GoError.errRecordNotFound, false)) ∧
    (¬ title < "null" → (MovieModel.GetByTitle db title).2 = true) ∧
    (∀ m ∈ db, m.Title < "null" →
      (MovieModel.GetByTitle db m.Title).1 = Except.error GoError.errRecordNotFound) := by
  refine ⟨fun h => by simp [MovieModel.GetByTitle, h], fun h => ?_,
    fun m _ h => by simp [MovieModel.GetByTitle, h]⟩
  unfold MovieModel.GetByTitle
  rw [if_neg h]
  cases db.find? (fun r => r.Title == title) <;> rfl

/-- Concrete instantiation of the C9 theorem: "Dune" sorts below "null", so the
lookup of the stored movie titled "Dune" returns NotFound with no query issued. -/
theorem getByTitle_null_guard_witness :
    MovieModel.GetByTitle [mv1] "Dune" = (Except.error GoError.errRecordNotFound, false) :=
  (getByTitle_null_guard [mv1] "Dune").1 (String.lt_iff_toList_lt.mpr (by decide))

/-- C10: when no stored actor row matches the id, UpdateActor surfaces the raw
driver `sql.ErrNoRows` completely untranslated — neither NotFound nor
EditConflict — and the update handler turns it into the 500 server error. -/
theorem updateActor_raw_noRows_to_500 (db : List Actor) (a : Actor)
    (h : ∀ r ∈ db, r.ID ≠ a.ID) :
    (ActorModel.UpdateActor db a none).2 = Except.error GoError.sqlErrNoRows ∧
    GoError.sqlErrNoRows ≠ GoError.errRecordNotFound ∧
    GoError.sqlErrNoRows ≠ GoError.errEditConflict ∧
    updateActorHandlerOnUpdate (ActorModel.UpdateActor db a none).2 = serverErrorStatus := by
  have hfil : db.filter (fun r => r.ID == a.ID) = [] := by
    rw [List.filter_eq_nil_iff]
    intro r hr
    simpa using h r hr
  refine ⟨by simp [ActorModel.UpdateActor, hfil], by simp, by simp, ?_⟩
  simp [ActorModel.UpdateActor, hfil, updateActorHandlerOnUpdate]

/-- Concrete instantiation of the C10 theorem: updating the absent actor id 5
yields the raw `sql.ErrNoRows` and a 500 response. -/
theorem updateActor_raw_noRows_witness :
    (ActorModel.UpdateActor [act1] actMissing none).2 = Except.error GoError.sqlErrNoRows :=
  (updateActor_raw_noRows_to_500 [act1] actMissing (by decide)).1
